import Mathlib

/-!
Verification of the particle-morphing and gesture-normalization core of the
`magic-fingers` gesture-based 3D particle system (`src/app.js`).

Modelling conventions (shallow embedding of the JavaScript source):
* JS numbers are modelled as real numbers `ℝ`.  NaN / Infinity can arise in
  the source only from the partial operations `x / 0`, `x % 0`,
  `Math.sqrt` of a negative, and `Math.acos` outside `[-1, 1]`; those four
  operations are therefore modelled as `Option ℝ`-valued (`jsDiv`, `jsMod`,
  `jsSqrt`, `jsAcos`), and a generator returning `some p` means exactly that
  the source computes a finite (non-NaN, non-infinite) point.
* `Math.random()` is modelled by an explicit stream `rng : ℕ → ℝ` of values,
  the `n`-th call of a generator reading `rng n`.
* JS `%` truncates toward zero; every `%` in the source is applied to
  nonnegative operands, where truncation and floor coincide, so `jsMod` uses
  the floor form.
* The `Float32Array` position buffers (3 floats per particle) are modelled as
  functions `ℕ → Point3`, one point per particle index.
-/

noncomputable section

open Real (pi sqrt arccos exp)

/-- A 3D point, mirroring `THREE.Vector3` as used by the pattern generators. -/
structure Point3 where
  x : ℝ
  y : ℝ
  z : ℝ

/-- JS division `a / b`: finite exactly when `b ≠ 0` (given finite operands). -/
def jsDiv (a b : ℝ) : Option ℝ :=
  if b = 0 then none else some (a / b)

/-- JS remainder `a % b` for nonnegative operands: finite exactly when `b ≠ 0`. -/
def jsMod (a b : ℝ) : Option ℝ :=
  if b = 0 then none else some (a - b * ⌊a / b⌋)

/-- `Math.sqrt`: NaN on negative input. -/
def jsSqrt (a : ℝ) : Option ℝ :=
  if a < 0 then none else some (Real.sqrt a)

/-- `Math.acos`: NaN outside `[-1, 1]`. -/
def jsAcos (a : ℝ) : Option ℝ :=
  if a < -1 ∨ 1 < a then none else some (Real.arccos a)

/-- `Math.floor`, total on ℝ. -/
def jsFloor (a : ℝ) : ℝ := (⌊a⌋ : ℤ)

/-- `Math.cbrt` for the nonnegative arguments used by the source. -/
def jsCbrt (a : ℝ) : ℝ := Real.rpow a (1 / 3)

/-- Euclidean distance of two 3D landmarks/points, as computed inline by the
source via `Math.sqrt(Math.pow(..,2) + ...)`. -/
def dist3 (p q : Point3) : ℝ :=
  Real.sqrt ((p.x - q.x) ^ 2 + (p.y - q.y) ^ 2 + (p.z - q.z) ^ 2)

/-- A pattern generator `(i, total) → Vector3`, with its `Math.random()` calls
made explicit as a read-only stream. -/
def PatternGen : Type := ℕ → ℕ → (ℕ → ℝ) → Option Point3

namespace Patterns

/-- `PATTERNS.sphere` (src/app.js:45). -/
def sphere : PatternGen := fun i total _rng => do
  let q ← jsDiv (2 * (i : ℝ)) (total : ℝ)
  let phi ← jsAcos (-1 + q)
  let s ← jsSqrt ((total : ℝ) * pi)
  let theta := s * phi
  let r : ℝ := 5
  some ⟨r * Real.cos theta * Real.sin phi,
        r * Real.sin theta * Real.sin phi,
        r * Real.cos phi⟩

/-- `PATTERNS.cube` (src/app.js:56). -/
def cube : PatternGen := fun i total _rng => do
  let size : ℝ := 8
  let perSide := jsCbrt (total : ℝ)
  let m1 ← jsMod (i : ℝ) perSide
  let x1 ← jsDiv m1 perSide
  let d1 ← jsDiv (i : ℝ) perSide
  let m2 ← jsMod (jsFloor d1) perSide
  let y1 ← jsDiv m2 perSide
  let d2 ← jsDiv (i : ℝ) (perSide * perSide)
  let z1 ← jsDiv (jsFloor d2) perSide
  some ⟨(x1 - 0.5) * size, (y1 - 0.5) * size, (z1 - 0.5) * size⟩

/-- `PATTERNS.torus` (src/app.js:65). -/
def torus : PatternGen := fun i total _rng => do
  let bigR : ℝ := 4
  let r : ℝ := 1.5
  let u1 ← jsDiv (i : ℝ) (total : ℝ)
  let u := u1 * pi * 2 * 8
  let m ← jsMod ((i : ℝ) * 13) (total : ℝ)
  let v1 ← jsDiv m (total : ℝ)
  let v := v1 * pi * 2
  some ⟨(bigR + r * Real.cos v) * Real.cos u,
        (bigR + r * Real.cos v) * Real.sin u,
        r * Real.sin v⟩

/-- `PATTERNS.spiral` (src/app.js:77). -/
def spiral : PatternGen := fun i total _rng => do
  let q ← jsDiv (i : ℝ) (total : ℝ)
  let t := q * 20
  let r := t * 0.3
  some ⟨r * Real.cos (t * 2), (q - 0.5) * 10, r * Real.sin (t * 2)⟩

/-- `PATTERNS.heart` (src/app.js:87). -/
def heart : PatternGen := fun i total rng => do
  let q ← jsDiv (i : ℝ) (total : ℝ)
  let t := q * pi * 2
  let m ← jsMod ((i : ℝ) * 7) (total : ℝ)
  let s ← jsDiv m (total : ℝ)
  let scale := 0.4 + s * 0.6
  some ⟨16 * Real.sin t ^ 3 * scale * 0.3,
        (13 * Real.cos t - 5 * Real.cos (2 * t) - 2 * Real.cos (3 * t)
          - Real.cos (4 * t)) * scale * 0.3,
        (rng 0 - 0.5) * 2 * scale⟩

/-- `PATTERNS.galaxy` (src/app.js:97); `Math.floor(i / arms)` on integers is
natural-number division. -/
def galaxy : PatternGen := fun i total rng => do
  let arms : ℕ := 3
  let arm := i % arms
  let pos ← jsDiv ((i / arms : ℕ) : ℝ) ((total : ℝ) / (arms : ℝ))
  let angle := (arm : ℝ) * (pi * 2 / (arms : ℝ)) + pos * 4
  let r := pos * 7
  let spread := pos * 1.5
  some ⟨r * Real.cos angle + (rng 0 - 0.5) * spread,
        (rng 1 - 0.5) * spread * 0.3,
        r * Real.sin angle + (rng 2 - 0.5) * spread⟩

/-- `PATTERNS.dna` (src/app.js:111). -/
def dna : PatternGen := fun i total _rng => do
  let q ← jsDiv (i : ℝ) (total : ℝ)
  let t := q * pi * 8
  let strand := i % 2
  let r : ℝ := 2
  let offset := (strand : ℝ) * pi
  some ⟨r * Real.cos (t + offset), (q - 0.5) * 15, r * Real.sin (t + offset)⟩

/-- `PATTERNS.tornado` (src/app.js:123). -/
def tornado : PatternGen := fun i total _rng => do
  let q ← jsDiv (i : ℝ) (total : ℝ)
  let height := q * 12 - 6
  let radius := (1 - |height| / 6) * 4 + 0.5
  let angle := q * pi * 20 + height
  some ⟨radius * Real.cos angle, height, radius * Real.sin angle⟩

/-- `PATTERNS.pyramid` (src/app.js:134); the single `Math.random()` result is
used in both the x and z coordinates. -/
def pyramid : PatternGen := fun i total rng => do
  let q ← jsDiv (i : ℝ) (total : ℝ)
  let sq ← jsSqrt q
  let level := jsFloor (sq * 10)
  let size := 8 - level * 0.8
  let y := level * 0.8 - 4
  let angle ← jsMod ((i : ℝ) * 2.39996) (pi * 2)
  let r := rng 0 * size
  some ⟨r * Real.cos angle, y, r * Real.sin angle⟩

/-- `PATTERNS.cylinder` (src/app.js:147). -/
def cylinder : PatternGen := fun i total _rng => do
  let u ← jsDiv (i : ℝ) (total : ℝ)
  let angle := u * pi * 40
  let m ← jsMod ((i : ℝ) * 17) (total : ℝ)
  let h1 ← jsDiv m (total : ℝ)
  let height := (h1 - 0.5) * 10
  let r : ℝ := 3
  some ⟨r * Real.cos angle, height, r * Real.sin angle⟩

/-- `PATTERNS.cone` (src/app.js:158). -/
def cone : PatternGen := fun i total _rng => do
  let t ← jsDiv (i : ℝ) (total : ℝ)
  let height := t * 10 - 5
  let radius := (1 - t) * 4
  let angle := (i : ℝ) * 2.39996
  some ⟨radius * Real.cos angle, height, radius * Real.sin angle⟩

/-- `PATTERNS.trefoilKnot` (src/app.js:170). -/
def trefoilKnot : PatternGen := fun i total _rng => do
  let q ← jsDiv (i : ℝ) (total : ℝ)
  let t := q * pi * 2
  let scale : ℝ := 2
  some ⟨scale * (Real.sin t + 2 * Real.sin (2 * t)),
        scale * (Real.cos t - 2 * Real.cos (2 * t)),
        scale * (-Real.sin (3 * t))⟩

/-- `PATTERNS.torusKnot` (src/app.js:180), with `p = 2`, `q = 3`. -/
def torusKnot : PatternGen := fun i total _rng => do
  let q1 ← jsDiv (i : ℝ) (total : ℝ)
  let t := q1 * pi * 2 * 3
  let r := 0.5 * (2 + Real.cos (3 * t))
  some ⟨r * Real.cos (2 * t) * 2.5, r * Real.sin (2 * t) * 2.5,
        -Real.sin (3 * t) * 2⟩

/-- `PATTERNS.star` (src/app.js:191); `Math.floor((i * 7) % 5)` is an integer
operation, so the floor is the identity. -/
def star : PatternGen := fun i total _rng => do
  let points : ℝ := 5
  let q ← jsDiv (i : ℝ) (total : ℝ)
  let angle := q * pi * 2 * points
  let r := 3 + 2 * Real.sin (angle * 2.5)
  let layer := ((i * 7 % 5 : ℕ) : ℝ) / 5
  some ⟨r * Real.cos angle, (layer - 0.5) * 4, r * Real.sin angle⟩

/-- `PATTERNS.explosion` (src/app.js:203). -/
def explosion : PatternGen := fun i total rng => do
  let q ← jsDiv (2 * (i : ℝ)) (total : ℝ)
  let phi ← jsAcos (-1 + q)
  let s ← jsSqrt ((total : ℝ) * pi)
  let theta := s * phi
  let r := 2 + rng 0 * 5
  some ⟨r * Real.cos theta * Real.sin phi,
        r * Real.sin theta * Real.sin phi,
        r * Real.cos phi⟩

/-- `PATTERNS.wave` (src/app.js:214). -/
def wave : PatternGen := fun i total _rng => do
  let gridSize ← jsSqrt (total : ℝ)
  let mx ← jsMod (i : ℝ) gridSize
  let x1 ← jsDiv mx gridSize
  let x := x1 * 16 - 8
  let dz ← jsDiv (i : ℝ) gridSize
  let z1 ← jsDiv (jsFloor dz) gridSize
  let z := z1 * 16 - 8
  let y := Real.sin (x * 0.5) * Real.cos (z * 0.5) * 3
  some ⟨x, y, z⟩

/-- `PATTERNS.ripple` (src/app.js:222). -/
def ripple : PatternGen := fun i total _rng => do
  let gridSize ← jsSqrt (total : ℝ)
  let mx ← jsMod (i : ℝ) gridSize
  let x1 ← jsDiv mx gridSize
  let x := x1 * 16 - 8
  let dz ← jsDiv (i : ℝ) gridSize
  let z1 ← jsDiv (jsFloor dz) gridSize
  let z := z1 * 16 - 8
  let dist ← jsSqrt (x * x + z * z)
  let y := Real.sin (dist * 1.5) * 2 * Real.exp (-dist * 0.1)
  some ⟨x, y, z⟩

/-- `PATTERNS.butterfly` (src/app.js:231). -/
def butterfly : PatternGen := fun i total rng => do
  let q ← jsDiv (i : ℝ) (total : ℝ)
  let t := q * pi * 12
  let r := Real.exp (Real.cos t) - 2 * Real.cos (4 * t) + Real.sin (t / 12) ^ 5
  some ⟨Real.sin t * r * 1.5, Real.cos t * r * 1.5, (rng 0 - 0.5) * 2⟩

/-- `PATTERNS.rose` (src/app.js:241), with `k = 5`. -/
def rose : PatternGen := fun i total _rng => do
  let k : ℝ := 5
  let q ← jsDiv (i : ℝ) (total : ℝ)
  let theta := q * pi * 6
  let r := 5 * Real.cos (k * theta)
  let m ← jsMod ((i : ℝ) * 3) (total : ℝ)
  let layer ← jsDiv m (total : ℝ)
  some ⟨r * Real.cos theta, (layer - 0.5) * 3, r * Real.sin theta⟩

/-- `PATTERNS.atom` (src/app.js:253); the first 10% of indices form the
nucleus from three `Math.random()` draws. -/
def atom : PatternGen := fun i total rng => do
  let orbits : ℕ := 3
  let orb := i % orbits
  let q ← jsDiv (i : ℝ) (total : ℝ)
  let angle := q * pi * 2 * 10
  let r : ℝ := 4
  let tilt := (orb : ℝ) * (pi / 3)
  if (i : ℝ) < (total : ℝ) * 0.1 then
    some ⟨(rng 0 - 0.5) * 1.5, (rng 1 - 0.5) * 1.5, (rng 2 - 0.5) * 1.5⟩
  else
    some ⟨r * Real.cos angle, r * Real.sin angle * Real.cos tilt,
          r * Real.sin angle * Real.sin tilt⟩

/-- `PATTERNS.vortex` (src/app.js:276). -/
def vortex : PatternGen := fun i total _rng => do
  let t ← jsDiv (i : ℝ) (total : ℝ)
  let angle := t * pi * 10
  let r := t * 6
  let height := Real.sin (t * pi) * 8 - 4
  some ⟨r * Real.cos angle, height, r * Real.sin angle⟩

/-- `PATTERNS.shell` (src/app.js:288), with `a = 0.2`, `b = 0.1`. -/
def shell : PatternGen := fun i total _rng => do
  let q ← jsDiv (i : ℝ) (total : ℝ)
  let t := q * pi * 6
  let a : ℝ := 0.2
  let b : ℝ := 0.1
  let r := a * Real.exp (b * t)
  some ⟨r * Real.cos t, r * Real.sin t, t * 0.3 - 3⟩

/-- `PATTERNS.infinity` (src/app.js:299). -/
def infinity : PatternGen := fun i total _rng => do
  let q ← jsDiv (i : ℝ) (total : ℝ)
  let t := q * pi * 2
  let scale : ℝ := 4
  let m ← jsMod ((i : ℝ) * 5) (total : ℝ)
  let l1 ← jsDiv m (total : ℝ)
  let layer := (l1 - 0.5) * 2
  let x ← jsDiv (scale * Real.cos t) (1 + Real.sin t * Real.sin t)
  let z ← jsDiv (scale * Real.sin t * Real.cos t) (1 + Real.sin t * Real.sin t)
  some ⟨x, layer, z⟩

/-- `PATTERNS.brain` (src/app.js:310). -/
def brain : PatternGen := fun i total _rng => do
  let q ← jsDiv (i : ℝ) (total : ℝ)
  let u := q * pi * 2
  let m ← jsMod ((i : ℝ) * 7) (total : ℝ)
  let v1 ← jsDiv m (total : ℝ)
  let v := v1 * pi
  let r := 4 + Real.sin (u * 8) * 0.5 + Real.sin (v * 6) * 0.3
  some ⟨r * Real.sin v * Real.cos u, r * Real.cos v, r * Real.sin v * Real.sin u⟩

/-- `PATTERNS.diamond` (src/app.js:321). -/
def diamond : PatternGen := fun i total _rng => do
  let t ← jsDiv (i : ℝ) (total : ℝ)
  let y := if t < 0.5 then t * 10 - 2.5 else (1 - t) * 10 - 2.5 + 5
  let radius := if t < 0.5 then t * 2 * 4 else (1 - t) * 2 * 4
  let angle := (i : ℝ) * 2.39996
  some ⟨radius * Real.cos angle, y, radius * Real.sin angle⟩

/-- The five fixed cluster centers of `PATTERNS.cloud` (src/app.js:341). -/
def cloudCenters : List Point3 :=
  [⟨0, 0, 0⟩, ⟨3, 1, 0⟩, ⟨-3, 0.5, 1⟩, ⟨1.5, -0.5, -2⟩, ⟨-1.5, 1.5, 2⟩]

/-- `PATTERNS.cloud` (src/app.js:339); `centers[cluster] || centers[0]`
falls back to the first center when the index is out of bounds. -/
def cloud : PatternGen := fun i total rng => do
  let d ← jsDiv (i : ℝ) ((total : ℝ) / 5)
  let cluster := (⌊d⌋).toNat
  let c := (cloudCenters.get? cluster).getD ⟨0, 0, 0⟩
  let spread : ℝ := 2.5
  some ⟨c.x + (rng 0 - 0.5) * spread,
        c.y + (rng 1 - 0.5) * spread * 0.5,
        c.z + (rng 2 - 0.5) * spread⟩

/-- `PATTERNS.lightning` (src/app.js:357); the single `Math.random()` draw
feeds the jitter used in both x and z. -/
def lightning : PatternGen := fun i total rng => do
  let b ← jsDiv (i : ℝ) ((total : ℝ) / 5)
  let branch := jsFloor b
  let m ← jsMod (i : ℝ) ((total : ℝ) / 5)
  let t ← jsDiv m ((total : ℝ) / 5)
  let baseAngle := branch * (pi * 2 / 5)
  let jitter := (rng 0 - 0.5) * t * 3
  some ⟨Real.sin baseAngle * t * 6 + jitter, 5 - t * 10,
        Real.cos baseAngle * t * 6 + jitter⟩

/-- `PATTERNS.snowflake` (src/app.js:369). -/
def snowflake : PatternGen := fun i total rng => do
  let arms : ℕ := 6
  let arm := i % arms
  let pos ← jsDiv ((i / arms : ℕ) : ℝ) ((total : ℝ) / (arms : ℝ))
  let angle := (arm : ℝ) * (pi * 2 / (arms : ℝ))
  let branchAngle := angle + (if ⌊pos * 3⌋ % 2 = 0 then (0.3 : ℝ) else -0.3) * pos
  let r := pos * 5
  some ⟨r * Real.cos branchAngle, (rng 0 - 0.5) * 0.5, r * Real.sin branchAngle⟩

/-- `PATTERNS.orbit` (src/app.js:383); the first 15% of indices form the
central body from three `Math.random()` draws. -/
def orbit : PatternGen := fun i total rng => do
  let satellites : ℕ := 4
  let sat := i % satellites
  let q ← jsDiv (i : ℝ) (total : ℝ)
  let mainOrbit := q * pi * 2
  if (i : ℝ) < (total : ℝ) * 0.15 then
    let r := rng 0 * 1.5
    let theta := rng 1 * pi * 2
    let phi := rng 2 * pi
    some ⟨r * Real.sin phi * Real.cos theta,
          r * Real.sin phi * Real.sin theta,
          r * Real.cos phi⟩
  else
    let orbitRadius := 3 + (sat : ℝ) * 1.5
    let tilt := (sat : ℝ) * 0.3
    some ⟨orbitRadius * Real.cos (mainOrbit + (sat : ℝ)),
          orbitRadius * Real.sin (mainOrbit + (sat : ℝ)) * Real.sin tilt,
          orbitRadius * Real.sin (mainOrbit + (sat : ℝ)) * Real.cos tilt⟩

end Patterns

/-- The pattern registry `PATTERNS` (src/app.js:43): a string-keyed map from
pattern name to generator; lookup of an unregistered name yields nothing. -/
def PATTERNS : String → Option PatternGen
  | "sphere" => some Patterns.sphere
  | "cube" => some Patterns.cube
  | "torus" => some Patterns.torus
  | "spiral" => some Patterns.spiral
  | "heart" => some Patterns.heart
  | "galaxy" => some Patterns.galaxy
  | "dna" => some Patterns.dna
  | "tornado" => some Patterns.tornado
  | "pyramid" => some Patterns.pyramid
  | "cylinder" => some Patterns.cylinder
  | "cone" => some Patterns.cone
  | "trefoilKnot" => some Patterns.trefoilKnot
  | "torusKnot" => some Patterns.torusKnot
  | "star" => some Patterns.star
  | "explosion" => some Patterns.explosion
  | "wave" => some Patterns.wave
  | "ripple" => some Patterns.ripple
  | "butterfly" => some Patterns.butterfly
  | "rose" => some Patterns.rose
  | "atom" => some Patterns.atom
  | "vortex" => some Patterns.vortex
  | "shell" => some Patterns.shell
  | "infinity" => some Patterns.infinity
  | "brain" => some Patterns.brain
  | "diamond" => some Patterns.diamond
  | "cloud" => some Patterns.cloud
  | "lightning" => some Patterns.lightning
  | "snowflake" => some Patterns.snowflake
  | "orbit" => some Patterns.orbit
  | _ => none

theorem jsDiv_eq (a b : ℝ) (h : b ≠ 0) : jsDiv a b = some (a / b) := by
  simp [jsDiv, h]

theorem jsMod_eq (a b : ℝ) (h : b ≠ 0) : jsMod a b = some (a - b * ⌊a / b⌋) := by
  simp [jsMod, h]

theorem jsSqrt_eq (a : ℝ) (h : 0 ≤ a) : jsSqrt a = some (Real.sqrt a) := by
  simp [jsSqrt, not_lt.mpr h]

theorem jsAcos_eq (a : ℝ) (h1 : -1 ≤ a) (h2 : a ≤ 1) :
    jsAcos a = some (Real.arccos a) := by
  simp [jsAcos, not_lt.mpr h1, not_lt.mpr h2]

theorem sq_add_self_nonneg (x z : ℝ) : 0 ≤ x * x + z * z := by
  nlinarith [mul_self_nonneg x, mul_self_nonneg z]

theorem one_add_sin_sq_ne (t : ℝ) : 1 + Real.sin t * Real.sin t ≠ 0 := by
  nlinarith [mul_self_nonneg (Real.sin t)]

namespace Patterns

theorem sphere_isSome (i total : ℕ) (rng : ℕ → ℝ) (h0 : 0 < total)
    (hi : i < total) : (sphere i total rng).isSome := by
  have htR : (0 : ℝ) < (total : ℝ) := by exact_mod_cast h0
  have ht : ((total : ℝ)) ≠ 0 := ne_of_gt htR
  have hq1 : (-1 : ℝ) ≤ -1 + 2 * (i : ℝ) / (total : ℝ) := by
    have : (0 : ℝ) ≤ 2 * (i : ℝ) / (total : ℝ) := by positivity
    linarith
  have hq2 : -1 + 2 * (i : ℝ) / (total : ℝ) ≤ 1 := by
    have hiR : (i : ℝ) ≤ (total : ℝ) := by exact_mod_cast hi.le
    have h2 : 2 * (i : ℝ) / (total : ℝ) ≤ 2 := by
      rw [div_le_iff₀ htR]
      nlinarith
    linarith
  rw [sphere, jsDiv_eq _ _ ht]
  simp only [Option.bind_eq_bind, Option.some_bind]
  rw [jsAcos_eq _ hq1 hq2]
  simp only [Option.bind_eq_bind, Option.some_bind]
  rw [jsSqrt_eq _ (by positivity)]
  rfl

theorem cube_isSome (i total : ℕ) (rng : ℕ → ℝ) (h0 : 0 < total)
    (_hi : i < total) : (cube i total rng).isSome := by
  have htR : (0 : ℝ) < (total : ℝ) := by exact_mod_cast h0
  have hps : (0 : ℝ) < jsCbrt (total : ℝ) := Real.rpow_pos_of_pos htR _
  have hp : jsCbrt (total : ℝ) ≠ 0 := ne_of_gt hps
  have hpp : jsCbrt (total : ℝ) * jsCbrt (total : ℝ) ≠ 0 := mul_ne_zero hp hp
  rw [cube]
  simp only [jsMod_eq _ _ hp, jsDiv_eq _ _ hp, jsDiv_eq _ _ hpp,
    Option.bind_eq_bind, Option.some_bind]
  rfl

theorem torus_isSome (i total : ℕ) (rng : ℕ → ℝ) (h0 : 0 < total)
    (_hi : i < total) : (torus i total rng).isSome := by
  have ht : ((total : ℝ)) ≠ 0 := by exact_mod_cast h0.ne'
  rw [torus]
  simp only [jsDiv_eq _ _ ht, jsMod_eq _ _ ht, Option.bind_eq_bind,
    Option.some_bind]
  rfl

theorem spiral_isSome (i total : ℕ) (rng : ℕ → ℝ) (h0 : 0 < total)
    (_hi : i < total) : (spiral i total rng).isSome := by
  have ht : ((total : ℝ)) ≠ 0 := by exact_mod_cast h0.ne'
  rw [spiral]
  simp only [jsDiv_eq _ _ ht, Option.bind_eq_bind, Option.some_bind]
  rfl

theorem heart_isSome (i total : ℕ) (rng : ℕ → ℝ) (h0 : 0 < total)
    (_hi : i < total) : (heart i total rng).isSome := by
  have ht : ((total : ℝ)) ≠ 0 := by exact_mod_cast h0.ne'
  rw [heart]
  simp only [jsDiv_eq _ _ ht, jsMod_eq _ _ ht, Option.bind_eq_bind,
    Option.some_bind]
  rfl

theorem galaxy_isSome (i total : ℕ) (rng : ℕ → ℝ) (h0 : 0 < total)
    (_hi : i < total) : (galaxy i total rng).isSome := by
  have ht : ((total : ℝ)) ≠ 0 := by exact_mod_cast h0.ne'
  have h3 : ((total : ℝ)) / ((3 : ℕ) : ℝ) ≠ 0 :=
    div_ne_zero ht (by norm_num)
  rw [galaxy]
  simp only [jsDiv_eq _ _ h3, Option.bind_eq_bind, Option.some_bind]
  rfl

theorem dna_isSome (i total : ℕ) (rng : ℕ → ℝ) (h0 : 0 < total)
    (_hi : i < total) : (dna i total rng).isSome := by
  have ht : ((total : ℝ)) ≠ 0 := by exact_mod_cast h0.ne'
  rw [dna]
  simp only [jsDiv_eq _ _ ht, Option.bind_eq_bind, Option.some_bind]
  rfl

theorem tornado_isSome (i total : ℕ) (rng : ℕ → ℝ) (h0 : 0 < total)
    (_hi : i < total) : (tornado i total rng).isSome := by
  have ht : ((total : ℝ)) ≠ 0 := by exact_mod_cast h0.ne'
  rw [tornado]
  simp only [jsDiv_eq _ _ ht, Option.bind_eq_bind, Option.some_bind]
  rfl

theorem pyramid_isSome (i total : ℕ) (rng : ℕ → ℝ) (h0 : 0 < total)
    (_hi : i < total) : (pyramid i total rng).isSome := by
  have ht : ((total : ℝ)) ≠ 0 := by exact_mod_cast h0.ne'
  have hq : (0 : ℝ) ≤ (i : ℝ) / (total : ℝ) := by positivity
  have hm : Real.pi * 2 ≠ 0 := by positivity
  rw [pyramid]
  simp only [jsDiv_eq _ _ ht, Option.bind_eq_bind, Option.some_bind]
  rw [jsSqrt_eq _ hq]
  simp only [Option.bind_eq_bind, Option.some_bind]
  rw [jsMod_eq _ _ hm]
  rfl

theorem cylinder_isSome (i total : ℕ) (rng : ℕ → ℝ) (h0 : 0 < total)
    (_hi : i < total) : (cylinder i total rng).isSome := by
  have ht : ((total : ℝ)) ≠ 0 := by exact_mod_cast h0.ne'
  rw [cylinder]
  simp only [jsDiv_eq _ _ ht, jsMod_eq _ _ ht, Option.bind_eq_bind,
    Option.some_bind]
  rfl

theorem cone_isSome (i total : ℕ) (rng : ℕ → ℝ) (h0 : 0 < total)
    (_hi : i < total) : (cone i total rng).isSome := by
  have ht : ((total : ℝ)) ≠ 0 := by exact_mod_cast h0.ne'
  rw [cone]
  simp only [jsDiv_eq _ _ ht, Option.bind_eq_bind, Option.some_bind]
  rfl

theorem trefoilKnot_isSome (i total : ℕ) (rng : ℕ → ℝ) (h0 : 0 < total)
    (_hi : i < total) : (trefoilKnot i total rng).isSome := by
  have ht : ((total : ℝ)) ≠ 0 := by exact_mod_cast h0.ne'
  rw [trefoilKnot]
  simp only [jsDiv_eq _ _ ht, Option.bind_eq_bind, Option.some_bind]
  rfl

theorem torusKnot_isSome (i total : ℕ) (rng : ℕ → ℝ) (h0 : 0 < total)
    (_hi : i < total) : (torusKnot i total rng).isSome := by
  have ht : ((total : ℝ)) ≠ 0 := by exact_mod_cast h0.ne'
  rw [torusKnot]
  simp only [jsDiv_eq _ _ ht, Option.bind_eq_bind, Option.some_bind]
  rfl

theorem star_isSome (i total : ℕ) (rng : ℕ → ℝ) (h0 : 0 < total)
    (_hi : i < total) : (star i total rng).isSome := by
  have ht : ((total : ℝ)) ≠ 0 := by exact_mod_cast h0.ne'
  rw [star]
  simp only [jsDiv_eq _ _ ht, Option.bind_eq_bind, Option.some_bind]
  rfl

theorem explosion_isSome (i total : ℕ) (rng : ℕ → ℝ) (h0 : 0 < total)
    (hi : i < total) : (explosion i total rng).isSome := by
  have htR : (0 : ℝ) < (total : ℝ) := by exact_mod_cast h0
  have ht : ((total : ℝ)) ≠ 0 := ne_of_gt htR
  have hq1 : (-1 : ℝ) ≤ -1 + 2 * (i : ℝ) / (total : ℝ) := by
    have : (0 : ℝ) ≤ 2 * (i : ℝ) / (total : ℝ) := by positivity
    linarith
  have hq2 : -1 + 2 * (i : ℝ) / (total : ℝ) ≤ 1 := by
    have hiR : (i : ℝ) ≤ (total : ℝ) := by exact_mod_cast hi.le
    have h2 : 2 * (i : ℝ) / (total : ℝ) ≤ 2 := by
      rw [div_le_iff₀ htR]
      nlinarith
    linarith
  rw [explosion, jsDiv_eq _ _ ht]
  simp only [Option.bind_eq_bind, Option.some_bind]
  rw [jsAcos_eq _ hq1 hq2]
  simp only [Option.bind_eq_bind, Option.some_bind]
  rw [jsSqrt_eq _ (by positivity)]
  rfl

theorem wave_isSome (i total : ℕ) (rng : ℕ → ℝ) (h0 : 0 < total)
    (_hi : i < total) : (wave i total rng).isSome := by
  have htR : (0 : ℝ) < (total : ℝ) := by exact_mod_cast h0
  have hg : Real.sqrt (total : ℝ) ≠ 0 := ne_of_gt (Real.sqrt_pos.mpr htR)
  rw [wave]
  rw [jsSqrt_eq _ htR.le]
  simp only [jsMod_eq _ _ hg, jsDiv_eq _ _ hg, Option.bind_eq_bind,
    Option.some_bind]
  rfl

theorem ripple_isSome (i total : ℕ) (rng : ℕ → ℝ) (h0 : 0 < total)
    (_hi : i < total) : (ripple i total rng).isSome := by
  have htR : (0 : ℝ) < (total : ℝ) := by exact_mod_cast h0
  have hg : Real.sqrt (total : ℝ) ≠ 0 := ne_of_gt (Real.sqrt_pos.mpr htR)
  rw [ripple]
  rw [jsSqrt_eq _ htR.le]
  simp only [jsMod_eq _ _ hg, jsDiv_eq _ _ hg, Option.bind_eq_bind,
    Option.some_bind]
  rw [jsSqrt_eq _ (sq_add_self_nonneg _ _)]
  rfl

theorem butterfly_isSome (i total : ℕ) (rng : ℕ → ℝ) (h0 : 0 < total)
    (_hi : i < total) : (butterfly i total rng).isSome := by
  have ht : ((total : ℝ)) ≠ 0 := by exact_mod_cast h0.ne'
  rw [butterfly]
  simp only [jsDiv_eq _ _ ht, Option.bind_eq_bind, Option.some_bind]
  rfl

theorem rose_isSome (i total : ℕ) (rng : ℕ → ℝ) (h0 : 0 < total)
    (_hi : i < total) : (rose i total rng).isSome := by
  have ht : ((total : ℝ)) ≠ 0 := by exact_mod_cast h0.ne'
  rw [rose]
  simp only [jsDiv_eq _ _ ht, jsMod_eq _ _ ht, Option.bind_eq_bind,
    Option.some_bind]
  rfl

theorem atom_isSome (i total : ℕ) (rng : ℕ → ℝ) (h0 : 0 < total)
    (_hi : i < total) : (atom i total rng).isSome := by
  have ht : ((total : ℝ)) ≠ 0 := by exact_mod_cast h0.ne'
  rw [atom]
  simp only [jsDiv_eq _ _ ht, Option.bind_eq_bind, Option.some_bind]
  split <;> rfl

theorem vortex_isSome (i total : ℕ) (rng : ℕ → ℝ) (h0 : 0 < total)
    (_hi : i < total) : (vortex i total rng).isSome := by
  have ht : ((total : ℝ)) ≠ 0 := by exact_mod_cast h0.ne'
  rw [vortex]
  simp only [jsDiv_eq _ _ ht, Option.bind_eq_bind, Option.some_bind]
  rfl

theorem shell_isSome (i total : ℕ) (rng : ℕ → ℝ) (h0 : 0 < total)
    (_hi : i < total) : (shell i total rng).isSome := by
  have ht : ((total : ℝ)) ≠ 0 := by exact_mod_cast h0.ne'
  rw [shell]
  simp only [jsDiv_eq _ _ ht, Option.bind_eq_bind, Option.some_bind]
  rfl

theorem infinity_isSome (i total : ℕ) (rng : ℕ → ℝ) (h0 : 0 < total)
    (_hi : i < total) : (infinity i total rng).isSome := by
  have ht : ((total : ℝ)) ≠ 0 := by exact_mod_cast h0.ne'
  rw [infinity]
  simp only [jsDiv_eq _ _ ht, jsMod_eq _ _ ht,
    jsDiv_eq _ _ (one_add_sin_sq_ne _), Option.bind_eq_bind, Option.some_bind]
  rfl

theorem brain_isSome (i total : ℕ) (rng : ℕ → ℝ) (h0 : 0 < total)
    (_hi : i < total) : (brain i total rng).isSome := by
  have ht : ((total : ℝ)) ≠ 0 := by exact_mod_cast h0.ne'
  rw [brain]
  simp only [jsDiv_eq _ _ ht, jsMod_eq _ _ ht, Option.bind_eq_bind,
    Option.some_bind]
  rfl

theorem diamond_isSome (i total : ℕ) (rng : ℕ → ℝ) (h0 : 0 < total)
    (_hi : i < total) : (diamond i total rng).isSome := by
  have ht : ((total : ℝ)) ≠ 0 := by exact_mod_cast h0.ne'
  rw [diamond]
  simp only [jsDiv_eq _ _ ht, Option.bind_eq_bind, Option.some_bind]
  rfl

theorem cloud_isSome (i total : ℕ) (rng : ℕ → ℝ) (h0 : 0 < total)
    (_hi : i < total) : (cloud i total rng).isSome := by
  have ht : ((total : ℝ)) ≠ 0 := by exact_mod_cast h0.ne'
  have h5 : ((total : ℝ)) / 5 ≠ 0 := div_ne_zero ht (by norm_num)
  rw [cloud]
  simp only [jsDiv_eq _ _ h5, Option.bind_eq_bind, Option.some_bind]
  rfl

theorem lightning_isSome (i total : ℕ) (rng : ℕ → ℝ) (h0 : 0 < total)
    (_hi : i < total) : (lightning i total rng).isSome := by
  have ht : ((total : ℝ)) ≠ 0 := by exact_mod_cast h0.ne'
  have h5 : ((total : ℝ)) / 5 ≠ 0 := div_ne_zero ht (by norm_num)
  rw [lightning]
  simp only [jsDiv_eq _ _ h5, jsMod_eq _ _ h5, Option.bind_eq_bind,
    Option.some_bind]
  rfl

theorem snowflake_isSome (i total : ℕ) (rng : ℕ → ℝ) (h0 : 0 < total)
    (_hi : i < total) : (snowflake i total rng).isSome := by
  have ht : ((total : ℝ)) ≠ 0 := by exact_mod_cast h0.ne'
  have h6 : ((total : ℝ)) / ((6 : ℕ) : ℝ) ≠ 0 := div_ne_zero ht (by norm_num)
  rw [snowflake]
  simp only [jsDiv_eq _ _ h6, Option.bind_eq_bind, Option.some_bind]
  rfl

theorem orbit_isSome (i total : ℕ) (rng : ℕ → ℝ) (h0 : 0 < total)
    (_hi : i < total) : (orbit i total rng).isSome := by
  have ht : ((total : ℝ)) ≠ 0 := by exact_mod_cast h0.ne'
  rw [orbit]
  simp only [jsDiv_eq _ _ ht, Option.bind_eq_bind, Option.some_bind]
  split <;> rfl

end Patterns

/-- Any registered generator produces a defined (finite) point at every index
`i < total` when `total > 0`, for any random stream. -/
theorem patterns_isSome (p : String) (g : PatternGen) (hp : PATTERNS p = some g)
    (i total : ℕ) (h0 : 0 < total) (hi : i < total) (rng : ℕ → ℝ) :
    (g i total rng).isSome := by
  unfold PATTERNS at hp
  split at hp <;>
    first
      | (cases hp
         first
           | exact Patterns.sphere_isSome i total rng h0 hi
           | exact Patterns.cube_isSome i total rng h0 hi
           | exact Patterns.torus_isSome i total rng h0 hi
           | exact Patterns.spiral_isSome i total rng h0 hi
           | exact Patterns.heart_isSome i total rng h0 hi
           | exact Patterns.galaxy_isSome i total rng h0 hi
           | exact Patterns.dna_isSome i total rng h0 hi
           | exact Patterns.tornado_isSome i total rng h0 hi
           | exact Patterns.pyramid_isSome i total rng h0 hi
           | exact Patterns.cylinder_isSome i total rng h0 hi
           | exact Patterns.cone_isSome i total rng h0 hi
           | exact Patterns.trefoilKnot_isSome i total rng h0 hi
           | exact Patterns.torusKnot_isSome i total rng h0 hi
           | exact Patterns.star_isSome i total rng h0 hi
           | exact Patterns.explosion_isSome i total rng h0 hi
           | exact Patterns.wave_isSome i total rng h0 hi
           | exact Patterns.ripple_isSome i total rng h0 hi
           | exact Patterns.butterfly_isSome i total rng h0 hi
           | exact Patterns.rose_isSome i total rng h0 hi
           | exact Patterns.atom_isSome i total rng h0 hi
           | exact Patterns.vortex_isSome i total rng h0 hi
           | exact Patterns.shell_isSome i total rng h0 hi
           | exact Patterns.infinity_isSome i total rng h0 hi
           | exact Patterns.brain_isSome i total rng h0 hi
           | exact Patterns.diamond_isSome i total rng h0 hi
           | exact Patterns.cloud_isSome i total rng h0 hi
           | exact Patterns.lightning_isSome i total rng h0 hi
           | exact Patterns.snowflake_isSome i total rng h0 hi
           | exact Patterns.orbit_isSome i total rng h0 hi)
      | exact absurd hp (by simp)

/-- Morph-controller state of `ParticleSystem` (src/app.js:585): particle
count, current pattern name, morph start time, and the source/target
position buffers (one 3D point per particle index; indices at or above
`count` model the untouched tail of the fixed-capacity `Float32Array`). -/
structure MorphState where
  count : ℕ
  currentPattern : String
  morphStartTime : ℝ
  sourcePosition : ℕ → Point3
  targetPosition : ℕ → Point3

/-- `ParticleSystem.setPattern` (src/app.js:705): an unregistered name
returns early with no mutation; otherwise the whole `targetPosition` buffer
is copied into `sourcePosition`, `targetPosition[i]` is regenerated for every
`i < count` (the generator of particle `i` reading random stream `rng i`),
and `morphStartTime` is reset to `now`.  The `getD` fallback is unreachable
for registered generators (`patterns_isSome`); it mirrors the source storing
whatever the generator produced. -/
def setPattern (s : MorphState) (patternName : String) (now : ℝ)
    (rng : ℕ → ℕ → ℝ) : MorphState :=
  match PATTERNS patternName with
  | none => s
  | some patternFn =>
    { s with
      currentPattern := patternName,
      sourcePosition := s.targetPosition,
      targetPosition := fun i =>
        if i < s.count then (patternFn i s.count (rng i)).getD (s.targetPosition i)
        else s.targetPosition i,
      morphStartTime := now }

/-- `CONFIG.morphSpeed` (src/app.js:34): seconds for a full morph. -/
def morphSpeed : ℝ := 1.5

/-- The morph blend factor computed each frame by `ParticleSystem.update`
(src/app.js:784): `Math.min(1.0, elapsed / CONFIG.morphSpeed)`. -/
def morphFactor (morphStartTime t : ℝ) : ℝ :=
  min 1 ((t - morphStartTime) / morphSpeed)

/-- C1: for every registered pattern name and particle count `N > 0`,
`setPattern` copies the entire current `targetPosition` buffer into
`sourcePosition`, sets `targetPosition[i]` to the registered generator's
output for `(i, N)` for every `i < N`, and resets `morphStartTime` to the
current time. -/
theorem setPattern_copies_generates_resets (s : MorphState) (p : String)
    (g : PatternGen) (now : ℝ) (rng : ℕ → ℕ → ℝ)
    (hp : PATTERNS p = some g) (hN : 0 < s.count) :
    (setPattern s p now rng).sourcePosition = s.targetPosition ∧
    (∀ i < s.count,
      g i s.count (rng i) = some ((setPattern s p now rng).targetPosition i)) ∧
    (setPattern s p now rng).morphStartTime = now := by
  rw [setPattern, hp]
  refine ⟨rfl, ?_, rfl⟩
  intro i hi
  obtain ⟨v, hv⟩ := Option.isSome_iff_exists.mp
    (patterns_isSome p g hp i s.count hN hi (rng i))
  simp [hi, hv]

/-- Witness for C1 at `p = "sphere"`, a one-particle state. -/
theorem setPattern_copies_generates_resets_witness :
    PATTERNS "sphere" = some Patterns.sphere ∧ 0 < (1 : ℕ) ∧
    ((setPattern ⟨1, "sphere", 0, fun _ => ⟨0, 0, 0⟩, fun _ => ⟨0, 0, 0⟩⟩
        "sphere" 7 (fun _ _ => 0)).sourcePosition = (fun _ => ⟨0, 0, 0⟩) ∧
      (∀ i < (1 : ℕ),
        Patterns.sphere i 1 ((fun _ _ => (0 : ℝ)) i) =
          some ((setPattern ⟨1, "sphere", 0, fun _ => ⟨0, 0, 0⟩, fun _ => ⟨0, 0, 0⟩⟩
            "sphere" 7 (fun _ _ => 0)).targetPosition i)) ∧
      (setPattern ⟨1, "sphere", 0, fun _ => ⟨0, 0, 0⟩, fun _ => ⟨0, 0, 0⟩⟩
        "sphere" 7 (fun _ _ => 0)).morphStartTime = 7) :=
  ⟨rfl, by decide,
    setPattern_copies_generates_resets _ "sphere" Patterns.sphere 7 _ rfl
      (by decide)⟩

/-- C2: an unregistered pattern name is rejected with no state mutation. -/
theorem setPattern_unknown_no_mutation (s : MorphState) (p : String)
    (now : ℝ) (rng : ℕ → ℕ → ℝ) (hp : PATTERNS p = none) :
    setPattern s p now rng = s ∧
    (setPattern s p now rng).sourcePosition = s.sourcePosition ∧
    (setPattern s p now rng).targetPosition = s.targetPosition ∧
    (setPattern s p now rng).currentPattern = s.currentPattern ∧
    (setPattern s p now rng).morphStartTime = s.morphStartTime := by
  rw [setPattern, hp]
  exact ⟨rfl, rfl, rfl, rfl, rfl⟩

/-- Witness for C2 at the unregistered name `"blob"`. -/
theorem setPattern_unknown_no_mutation_witness :
    PATTERNS "blob" = none ∧
    setPattern ⟨1, "sphere", 0, fun _ => ⟨0, 0, 0⟩, fun _ => ⟨0, 0, 0⟩⟩
        "blob" 7 (fun _ _ => 0) =
      ⟨1, "sphere", 0, fun _ => ⟨0, 0, 0⟩, fun _ => ⟨0, 0, 0⟩⟩ :=
  ⟨rfl,
    (setPattern_unknown_no_mutation
      ⟨1, "sphere", 0, fun _ => ⟨0, 0, 0⟩, fun _ => ⟨0, 0, 0⟩⟩
      "blob" 7 (fun _ _ => 0) rfl).1⟩

/-- C3: the blend factor equals `min 1 ((t - morphStartTime) / morphSpeed)`,
stays in `[0, 1]` for `t ≥ morphStartTime`, is monotone in `t`, and is
pinned at exactly `1` once `t ≥ morphStartTime + morphSpeed`. -/
theorem morphFactor_clamped_monotone_pinned (start t t1 t2 : ℝ)
    (ht : start ≤ t) (h12 : t1 < t2) :
    morphFactor start t = min 1 ((t - start) / morphSpeed) ∧
    0 ≤ morphFactor start t ∧ morphFactor start t ≤ 1 ∧
    morphFactor start t1 ≤ morphFactor start t2 ∧
    (start + morphSpeed ≤ t → morphFactor start t = 1) := by
  refine ⟨rfl, ?_, min_le_left _ _, ?_, ?_⟩
  · have h : (0 : ℝ) ≤ (t - start) / morphSpeed := by
      have : (0 : ℝ) ≤ t - start := by linarith
      rw [morphSpeed]
      positivity
    exact le_min zero_le_one h
  · unfold morphFactor
    have : (t1 - start) / morphSpeed ≤ (t2 - start) / morphSpeed := by
      rw [morphSpeed]
      apply div_le_div_of_nonneg_right _ (by norm_num)
      · linarith
    exact min_le_min le_rfl this
  · intro hd
    unfold morphFactor
    rw [min_eq_left]
    rw [morphSpeed] at *
    rw [le_div_iff₀ (by norm_num)]
    linarith

/-- Witness for C3 at `start = 0`, `t = 1`, `t1 = 0`, `t2 = 3`. -/
theorem morphFactor_clamped_monotone_pinned_witness :
    (0 : ℝ) ≤ 1 ∧ (0 : ℝ) < 3 ∧
    (morphFactor 0 1 = min 1 ((1 - 0) / morphSpeed) ∧
      0 ≤ morphFactor 0 1 ∧ morphFactor 0 1 ≤ 1 ∧
      morphFactor 0 0 ≤ morphFactor 0 3 ∧
      (0 + morphSpeed ≤ 1 → morphFactor 0 1 = 1)) :=
  ⟨zero_le_one, by norm_num,
    morphFactor_clamped_monotone_pinned 0 1 0 3 zero_le_one (by norm_num)⟩

/-- C5: re-running `setPattern "sphere"` is idempotent on the target buffer:
the second call regenerates identical targets (the sphere generator is
deterministic, independent of the random stream), so `targetPosition` is
unchanged after the second call. -/
theorem setPattern_sphere_idempotent (s : MorphState) (now1 now2 : ℝ)
    (rng1 rng2 : ℕ → ℕ → ℝ) :
    (setPattern (setPattern s "sphere" now1 rng1) "sphere" now2 rng2).targetPosition
      = (setPattern s "sphere" now1 rng1).targetPosition := by
  have hp : PATTERNS "sphere" = some Patterns.sphere := rfl
  funext j
  rw [setPattern, setPattern, hp]
  simp only
  by_cases hj : j < s.count
  · simp only [hj, if_pos]
    have hrr : ∀ r r' : ℕ → ℝ, Patterns.sphere j s.count r = Patterns.sphere j s.count r' :=
      fun _ _ => rfl
    rw [hrr (rng2 j) (rng1 j)]
    obtain ⟨v, hv⟩ := Option.isSome_iff_exists.mp
      (Patterns.sphere_isSome j s.count (rng1 j)
        (lt_of_le_of_lt (Nat.zero_le j) hj) hj)
    rw [hv]
    simp
  · simp only [hj, if_neg, ite_false]

/-- C4: for every registered pattern and every
`total ∈ {1, 2, 1000, 30000}`, the generator yields a defined, finite 3D
point at every index `i < total` (no failed division, remainder, square
root, arccos domain error, or out-of-bounds access), for any random
stream. -/
theorem registered_generators_defined (p : String) (g : PatternGen)
    (hp : PATTERNS p = some g) (total : ℕ)
    (htot : total = 1 ∨ total = 2 ∨ total = 1000 ∨ total = 30000)
    (i : ℕ) (hi : i < total) (rng : ℕ → ℝ) : (g i total rng).isSome := by
  have h0 : 0 < total := by
    rcases htot with h | h | h | h <;> simp [h]
  exact patterns_isSome p g hp i total h0 hi rng

/-- Witness for C4 at `p = "sphere"`, `total = 1`, `i = 0`. -/
theorem registered_generators_defined_witness :
    PATTERNS "sphere" = some Patterns.sphere ∧
    ((1 : ℕ) = 1 ∨ (1 : ℕ) = 2 ∨ (1 : ℕ) = 1000 ∨ (1 : ℕ) = 30000) ∧
    (0 : ℕ) < 1 ∧
    (Patterns.sphere 0 1 (fun _ => 0)).isSome :=
  ⟨rfl, Or.inl rfl, by decide,
    registered_generators_defined "sphere" Patterns.sphere rfl 1
      (Or.inl rfl) 0 (by decide) (fun _ => 0)⟩

/-- A detected hand: the fixed MediaPipe sequence of landmarks, indexed by
the anatomical convention (0 = wrist, 2 = thumb base, 4 = thumb tip,
5/9/13/17 = finger MCP joints, 8/12/16/20 = finger tips). -/
def Hand : Type := ℕ → Point3

/-- A discrete swipe direction. -/
inductive SwipeDir where
  | left : SwipeDir
  | right : SwipeDir
deriving DecidableEq

/-- `GestureDetector` state (src/app.js:416): smoothed values, their raw
per-callback targets, presence flags, the swipe event and its reference
wrist x.  The object position `{x, y}` is split into its two scalar
components. -/
structure GestureDetector where
  handOpenness : ℝ
  targetOpenness : ℝ
  handRotation : ℝ
  targetRotation : ℝ
  handPositionX : ℝ
  handPositionY : ℝ
  targetPositionX : ℝ
  targetPositionY : ℝ
  pinchStrength : ℝ
  targetPinch : ℝ
  handPresent : Bool
  swipeDirection : Option SwipeDir
  lastWristX : ℝ
  twoHandsPresent : Bool
  handsDistance : ℝ
  targetHandsDistance : ℝ

/-- The `GestureDetector` constructor state (src/app.js:417). -/
def GestureDetector.init : GestureDetector :=
  { handOpenness := 0.5, targetOpenness := 0.5,
    handRotation := 0, targetRotation := 0,
    handPositionX := 0.5, handPositionY := 0.5,
    targetPositionX := 0.5, targetPositionY := 0.5,
    pinchStrength := 0, targetPinch := 0,
    handPresent := false, swipeDirection := none, lastWristX := 0.5,
    twoHandsPresent := false, handsDistance := 0, targetHandsDistance := 0 }

/-- `CONFIG.gestureSmoothing` (src/app.js:36). -/
def gestureSmoothing : ℝ := 0.1

/-- `Math.atan2(y, x)` as the argument of the complex number `x + y·i`. -/
def jsAtan2 (y x : ℝ) : ℝ := Complex.arg ⟨x, y⟩

/-- `GestureDetector.calculateOpenness` (src/app.js:482): summed tip/base
wrist-distance ratios of the four fingers plus a 5×-weighted thumb term,
rescaled from `[2, 6]` onto `[0, 1]` and clamped. -/
def calculateOpenness (landmarks : Hand) : ℝ :=
  let palm := landmarks 0
  let ext : ℕ → ℕ → ℝ := fun tipI baseI =>
    dist3 (landmarks tipI) palm / (dist3 (landmarks baseI) palm + 0.001)
  let fourFingers := ext 8 5 + ext 12 9 + ext 16 13 + ext 20 17
  let thumb := landmarks 4
  let thumbBase := landmarks 2
  let thumbExt :=
    Real.sqrt ((thumb.x - thumbBase.x) ^ 2 + (thumb.y - thumbBase.y) ^ 2)
  let totalExtension := fourFingers + thumbExt * 5
  min 1 (max 0 ((totalExtension - 2) / 4))

/-- `GestureDetector.calculateRotation` (src/app.js:522):
`Math.atan2(middleMCP.x - wrist.x, middleMCP.y - wrist.y)`. -/
def calculateRotation (landmarks : Hand) : ℝ :=
  jsAtan2 ((landmarks 9).x - (landmarks 0).x) ((landmarks 9).y - (landmarks 0).y)

/-- `GestureDetector.calculatePinch` (src/app.js:530):
`Math.max(0, 1 - distance(thumbTip, indexTip) * 5)`. -/
def calculatePinch (landmarks : Hand) : ℝ :=
  max 0 (1 - dist3 (landmarks 4) (landmarks 8) * 5)

/-- `GestureDetector.detectSwipe` (src/app.js:544): given the previous
reference wrist x and the current wrist x, returns the emitted swipe (if
any) and the new reference x. -/
def detectSwipe (lastWristX currentX : ℝ) : Option SwipeDir × ℝ :=
  if |currentX - lastWristX| > 0.15 then
    (some (if currentX - lastWristX > 0 then SwipeDir.right else SwipeDir.left),
      currentX)
  else
    (none, lastWristX)

/-- One exponential smoothing step `value += (target - value) * f`
(src/app.js:474). -/
def smoothStep (f value target : ℝ) : ℝ := value + (target - value) * f

/-- `GestureDetector.processResults` (src/app.js:435) for one detection
callback delivering `hands` (the `multiHandLandmarks` list): updates the raw
targets from the first hand (or enters the no-hand idle state), then applies
one smoothing step to every smoothed scalar.  The smoothing factor
`CONFIG.gestureSmoothing` is passed explicitly as `f`. -/
def processResults (f : ℝ) (s : GestureDetector) (hands : List Hand) :
    GestureDetector :=
  let s1 :=
    match hands with
    | [] =>
      { s with handPresent := false, targetOpenness := 0.5,
               swipeDirection := none }
    | h :: rest =>
      { s with
        handPresent := true,
        twoHandsPresent := !rest.isEmpty,
        targetOpenness := calculateOpenness h,
        targetRotation := calculateRotation h,
        targetPositionX := (h 0).x,
        targetPositionY := (h 0).y,
        targetPinch := calculatePinch h,
        swipeDirection := (detectSwipe s.lastWristX (h 0).x).1,
        lastWristX := (detectSwipe s.lastWristX (h 0).x).2,
        targetHandsDistance :=
          match rest with
          | [] => s.targetHandsDistance
          | h2 :: _ =>
            Real.sqrt (((h 0).x - (h2 0).x) ^ 2 + ((h 0).y - (h2 0).y) ^ 2) }
  { s1 with
    handOpenness := smoothStep f s1.handOpenness s1.targetOpenness,
    handRotation := smoothStep f s1.handRotation s1.targetRotation,
    handPositionX := smoothStep f s1.handPositionX s1.targetPositionX,
    handPositionY := smoothStep f s1.handPositionY s1.targetPositionY,
    pinchStrength := smoothStep f s1.pinchStrength s1.targetPinch,
    handsDistance := smoothStep f s1.handsDistance s1.targetHandsDistance }

/-- C6: with a hand present, a swipe is emitted iff the current wrist x
differs from the reference x by more than the `0.15` threshold; on emission
the direction is `right` exactly when the difference is positive and the
reference x is updated, otherwise the swipe flag is cleared and the
reference is kept. -/
theorem processResults_swipe_threshold (f : ℝ) (s : GestureDetector)
    (h : Hand) (rest : List Hand) :
    ((processResults f s (h :: rest)).swipeDirection ≠ none ↔
      |(h 0).x - s.lastWristX| > 0.15) ∧
    (|(h 0).x - s.lastWristX| > 0.15 →
      ((processResults f s (h :: rest)).swipeDirection = some SwipeDir.right ↔
        (h 0).x - s.lastWristX > 0) ∧
      (processResults f s (h :: rest)).lastWristX = (h 0).x) ∧
    (¬|(h 0).x - s.lastWristX| > 0.15 →
      (processResults f s (h :: rest)).swipeDirection = none ∧
      (processResults f s (h :: rest)).lastWristX = s.lastWristX) := by
  have hsw : (processResults f s (h :: rest)).swipeDirection
      = (detectSwipe s.lastWristX ((h 0).x)).1 := rfl
  have hlw : (processResults f s (h :: rest)).lastWristX
      = (detectSwipe s.lastWristX ((h 0).x)).2 := rfl
  rw [hsw, hlw]
  by_cases hc : |(h 0).x - s.lastWristX| > 0.15
  · by_cases hd : (h 0).x - s.lastWristX > 0 <;>
      simp [detectSwipe, hc, hd]
  · simp [detectSwipe, hc]

/-- The raw pinch value as a function of the thumb–index distance alone. -/
def pinchOfDistance (d : ℝ) : ℝ := max 0 (1 - d * 5)

/-- C7: the raw pinch target equals `max 0 (1 - 5 * distance(thumbTip,
indexTip))`; it is antitone in the distance, vanishes for distances of at
least `0.2`, and always lies in `[0, 1]`. -/
theorem pinch_formula_monotone_bounded (f : ℝ) (s : GestureDetector)
    (h : Hand) (rest : List Hand) (d1 d2 : ℝ) (hd : d1 ≤ d2) :
    (processResults f s (h :: rest)).targetPinch
        = max 0 (1 - dist3 (h 4) (h 8) * 5) ∧
    calculatePinch h = pinchOfDistance (dist3 (h 4) (h 8)) ∧
    pinchOfDistance d2 ≤ pinchOfDistance d1 ∧
    (0.2 ≤ dist3 (h 4) (h 8) →
      (processResults f s (h :: rest)).targetPinch = 0) ∧
    0 ≤ (processResults f s (h :: rest)).targetPinch ∧
    (processResults f s (h :: rest)).targetPinch ≤ 1 := by
  have htp : (processResults f s (h :: rest)).targetPinch = calculatePinch h := rfl
  rw [htp]
  refine ⟨rfl, rfl, ?_, ?_, le_max_left _ _, ?_⟩
  · exact max_le_max le_rfl (by linarith)
  · intro hge
    unfold calculatePinch
    rw [max_eq_left]
    linarith
  · unfold calculatePinch
    have h0 : 0 ≤ dist3 (h 4) (h 8) := Real.sqrt_nonneg _
    apply max_le zero_le_one
    nlinarith

/-- Witness for C7 at an all-zero hand and distances `0 ≤ 1`. -/
theorem pinch_formula_monotone_bounded_witness :
    (0 : ℝ) ≤ 1 ∧
    ((processResults 1 GestureDetector.init
        ((fun _ => ⟨0, 0, 0⟩) :: [])).targetPinch
      = max 0 (1 - dist3 ((fun _ => (⟨0, 0, 0⟩ : Point3)) 4)
          ((fun _ => (⟨0, 0, 0⟩ : Point3)) 8) * 5) ∧
     calculatePinch (fun _ => ⟨0, 0, 0⟩)
      = pinchOfDistance (dist3 ((fun _ => (⟨0, 0, 0⟩ : Point3)) 4)
          ((fun _ => (⟨0, 0, 0⟩ : Point3)) 8)) ∧
     pinchOfDistance 1 ≤ pinchOfDistance 0 ∧
     (0.2 ≤ dist3 ((fun _ => (⟨0, 0, 0⟩ : Point3)) 4)
          ((fun _ => (⟨0, 0, 0⟩ : Point3)) 8) →
       (processResults 1 GestureDetector.init
          ((fun _ => ⟨0, 0, 0⟩) :: [])).targetPinch = 0) ∧
     0 ≤ (processResults 1 GestureDetector.init
        ((fun _ => ⟨0, 0, 0⟩) :: [])).targetPinch ∧
     (processResults 1 GestureDetector.init
        ((fun _ => ⟨0, 0, 0⟩) :: [])).targetPinch ≤ 1) :=
  ⟨zero_le_one,
    pinch_formula_monotone_bounded 1 GestureDetector.init
      (fun _ => ⟨0, 0, 0⟩) [] 0 1 zero_le_one⟩

/-- Openness of the no-hand iterate: each zero-hand callback multiplies the
distance of the smoothed openness from the idle value `0.5` by `1 - f`. -/
theorem noHand_iterate_openness (f : ℝ) (s : GestureDetector) (n : ℕ) :
    ((fun st => processResults f st []) ^[n] s).handOpenness - 0.5
      = (1 - f) ^ n * (s.handOpenness - 0.5) := by
  induction n with
  | zero => simp
  | succ n ih =>
    rw [Function.iterate_succ_apply']
    have hstep : ∀ st : GestureDetector,
        (processResults f st []).handOpenness
          = st.handOpenness + (0.5 - st.handOpenness) * f := fun _ => rfl
    rw [hstep]
    have ho : ((fun st => processResults f st []) ^[n] s).handOpenness
        = (1 - f) ^ n * (s.handOpenness - 0.5) + 0.5 := by linarith
    rw [ho]
    ring

/-- C8: a zero-hand detection callback clears `handPresent`, snaps the
*target* openness to the idle value `0.5`, clears any pending swipe, and
moves the *smoothed* openness only one smoothing step toward `0.5`; under
continued zero-hand callbacks the smoothed openness converges to within any
`ε > 0` of `0.5`, for any smoothing factor in `(0, 1]`. -/
theorem noHand_idle_and_convergence (f : ℝ) (hf0 : 0 < f) (hf1 : f ≤ 1)
    (s : GestureDetector) (ε : ℝ) (hε : 0 < ε) :
    (processResults f s []).handPresent = false ∧
    (processResults f s []).targetOpenness = 0.5 ∧
    (processResults f s []).swipeDirection = none ∧
    (processResults f s []).handOpenness
        = s.handOpenness + (0.5 - s.handOpenness) * f ∧
    ∃ N, ∀ n ≥ N,
      |((fun st => processResults f st []) ^[n] s).handOpenness - 0.5| < ε := by
  refine ⟨rfl, rfl, rfl, rfl, ?_⟩
  have h1f0 : (0 : ℝ) ≤ 1 - f := by linarith
  have hC : (0 : ℝ) ≤ |s.handOpenness - 0.5| := abs_nonneg _
  obtain ⟨N, hN⟩ := exists_pow_lt_of_lt_one
    (div_pos hε (by linarith : (0 : ℝ) < |s.handOpenness - 0.5| + 1))
    (by linarith : 1 - f < 1)
  refine ⟨N, fun n hn => ?_⟩
  rw [noHand_iterate_openness, abs_mul, abs_pow, abs_of_nonneg h1f0]
  have hmono : (1 - f) ^ n ≤ (1 - f) ^ N :=
    pow_le_pow_of_le_one h1f0 (by linarith) hn
  have hNe : (1 - f) ^ N * (|s.handOpenness - 0.5| + 1) < ε := by
    have := mul_lt_mul_of_pos_right hN
      (by linarith : (0 : ℝ) < |s.handOpenness - 0.5| + 1)
    rwa [div_mul_cancel₀] at this
    linarith
  nlinarith [pow_nonneg h1f0 n, pow_nonneg h1f0 N]

/-- Witness for C8 at `f = 1`, `s = init`, `ε = 1`. -/
theorem noHand_idle_and_convergence_witness :
    (0 : ℝ) < 1 ∧ (1 : ℝ) ≤ 1 ∧
    ((processResults 1 GestureDetector.init []).handPresent = false ∧
     (processResults 1 GestureDetector.init []).targetOpenness = 0.5 ∧
     (processResults 1 GestureDetector.init []).swipeDirection = none ∧
     (processResults 1 GestureDetector.init []).handOpenness
        = GestureDetector.init.handOpenness
          + (0.5 - GestureDetector.init.handOpenness) * 1 ∧
     ∃ N, ∀ n ≥ N,
       |((fun st => processResults 1 st []) ^[n]
           GestureDetector.init).handOpenness - 0.5| < 1) :=
  ⟨zero_lt_one, le_refl 1,
    noHand_idle_and_convergence 1 zero_lt_one (le_refl 1)
      GestureDetector.init 1 zero_lt_one⟩

theorem dist3_nonneg (p q : Point3) : 0 ≤ dist3 p q := Real.sqrt_nonneg _

theorem calculateOpenness_mem (h : Hand) :
    0 ≤ calculateOpenness h ∧ calculateOpenness h ≤ 1 :=
  ⟨le_min zero_le_one (le_max_left 0 _), min_le_left _ _⟩

theorem calculatePinch_mem (h : Hand) :
    0 ≤ calculatePinch h ∧ calculatePinch h ≤ 1 := by
  unfold calculatePinch
  refine ⟨le_max_left _ _, max_le zero_le_one ?_⟩
  have h0 : 0 ≤ dist3 (h 4) (h 8) := dist3_nonneg _ _
  nlinarith

theorem smoothStep_mem (f a b : ℝ) (hf0 : 0 < f) (hf1 : f ≤ 1)
    (ha0 : 0 ≤ a) (ha1 : a ≤ 1) (hb0 : 0 ≤ b) (hb1 : b ≤ 1) :
    0 ≤ smoothStep f a b ∧ smoothStep f a b ≤ 1 := by
  unfold smoothStep
  constructor <;> nlinarith

/-- The inductive invariant behind C9: the smoothed openness/pinch and their
raw targets all lie in `[0, 1]`. -/
def GInv (s : GestureDetector) : Prop :=
  0 ≤ s.handOpenness ∧ s.handOpenness ≤ 1 ∧
  0 ≤ s.pinchStrength ∧ s.pinchStrength ≤ 1 ∧
  0 ≤ s.targetOpenness ∧ s.targetOpenness ≤ 1 ∧
  0 ≤ s.targetPinch ∧ s.targetPinch ≤ 1

theorem processResults_inv (f : ℝ) (hf0 : 0 < f) (hf1 : f ≤ 1)
    (s : GestureDetector) (hs : GInv s) (hands : List Hand) :
    GInv (processResults f s hands) := by
  obtain ⟨h1, h2, h3, h4, h5, h6, h7, h8⟩ := hs
  cases hands with
  | nil =>
    have ho := smoothStep_mem f s.handOpenness 0.5 hf0 hf1 h1 h2
      (by norm_num) (by norm_num)
    have hp := smoothStep_mem f s.pinchStrength s.targetPinch hf0 hf1 h3 h4 h7 h8
    exact ⟨ho.1, ho.2, hp.1, hp.2,
      show (0 : ℝ) ≤ 0.5 by norm_num, show (0.5 : ℝ) ≤ 1 by norm_num, h7, h8⟩
  | cons h rest =>
    have hco := calculateOpenness_mem h
    have hcp := calculatePinch_mem h
    have ho := smoothStep_mem f s.handOpenness (calculateOpenness h) hf0 hf1
      h1 h2 hco.1 hco.2
    have hp := smoothStep_mem f s.pinchStrength (calculatePinch h) hf0 hf1
      h3 h4 hcp.1 hcp.2
    exact ⟨ho.1, ho.2, hp.1, hp.2, hco.1, hco.2, hcp.1, hcp.2⟩

/-- The detector state after a sequence of detection callbacks, starting
from the constructor state. -/
def processTrace (f : ℝ) (inputs : List (List Hand)) : GestureDetector :=
  inputs.foldl (processResults f) GestureDetector.init

/-- C9: starting from the constructor state (openness `0.5`, pinch `0`),
after any sequence of detection callbacks the smoothed openness and pinch
remain in `[0, 1]`, for any smoothing factor in `(0, 1]`: every openness
target is clamped into `[0, 1]`, every pinch target lies in `[0, 1]`, and a
smoothing step is a convex combination. -/
theorem smoothed_openness_pinch_bounded (f : ℝ) (hf0 : 0 < f) (hf1 : f ≤ 1)
    (inputs : List (List Hand)) :
    0 ≤ (processTrace f inputs).handOpenness ∧
    (processTrace f inputs).handOpenness ≤ 1 ∧
    0 ≤ (processTrace f inputs).pinchStrength ∧
    (processTrace f inputs).pinchStrength ≤ 1 := by
  have key : ∀ (l : List (List Hand)) (s : GestureDetector), GInv s →
      GInv (l.foldl (processResults f) s) := by
    intro l
    induction l with
    | nil => exact fun s hs => hs
    | cons a t ih =>
      exact fun s hs => ih _ (processResults_inv f hf0 hf1 s hs a)
  have hinit : GInv GestureDetector.init := by
    unfold GInv GestureDetector.init
    norm_num
  obtain ⟨a1, a2, a3, a4, _⟩ := key inputs GestureDetector.init hinit
  exact ⟨a1, a2, a3, a4⟩

/-- Witness for C9 at `f = 1` and the empty callback sequence. -/
theorem smoothed_openness_pinch_bounded_witness :
    (0 : ℝ) < 1 ∧ (1 : ℝ) ≤ 1 ∧
    (0 ≤ (processTrace 1 []).handOpenness ∧
     (processTrace 1 []).handOpenness ≤ 1 ∧
     0 ≤ (processTrace 1 []).pinchStrength ∧
     (processTrace 1 []).pinchStrength ≤ 1) :=
  ⟨zero_lt_one, le_refl 1,
    smoothed_openness_pinch_bounded 1 zero_lt_one (le_refl 1) []⟩

/-- C10: all single-hand signals are derived solely from the first reported
hand: two detection results with the same first hand, processed from the
same prior state, produce identical target and smoothed openness, rotation,
position and pinch, and the same swipe decision and reference wrist x; only
`twoHandsPresent` and the two-hand distance can differ. -/
theorem first_hand_determines_single_hand_signals (f : ℝ)
    (s : GestureDetector) (h : Hand) (t1 t2 : List Hand) :
    (processResults f s (h :: t1)).targetOpenness
        = (processResults f s (h :: t2)).targetOpenness ∧
    (processResults f s (h :: t1)).targetRotation
        = (processResults f s (h :: t2)).targetRotation ∧
    (processResults f s (h :: t1)).targetPositionX
        = (processResults f s (h :: t2)).targetPositionX ∧
    (processResults f s (h :: t1)).targetPositionY
        = (processResults f s (h :: t2)).targetPositionY ∧
    (processResults f s (h :: t1)).targetPinch
        = (processResults f s (h :: t2)).targetPinch ∧
    (processResults f s (h :: t1)).swipeDirection
        = (processResults f s (h :: t2)).swipeDirection ∧
    (processResults f s (h :: t1)).lastWristX
        = (processResults f s (h :: t2)).lastWristX ∧
    (processResults f s (h :: t1)).handPresent
        = (processResults f s (h :: t2)).handPresent ∧
    (processResults f s (h :: t1)).handOpenness
        = (processResults f s (h :: t2)).handOpenness ∧
    (processResults f s (h :: t1)).handRotation
        = (processResults f s (h :: t2)).handRotation ∧
    (processResults f s (h :: t1)).handPositionX
        = (processResults f s (h :: t2)).handPositionX ∧
    (processResults f s (h :: t1)).handPositionY
        = (processResults f s (h :: t2)).handPositionY ∧
    (processResults f s (h :: t1)).pinchStrength
        = (processResults f s (h :: t2)).pinchStrength :=
  ⟨rfl, rfl, rfl, rfl, rfl, rfl, rfl, rfl, rfl, rfl, rfl, rfl, rfl⟩
